import Mathlib

/-!
Shallow embedding of the synchronization core of the rollback-netcode
library: the synchronization layer (`src/ggez/src/sync_layer.rs`) and the
determinism test driver (`src/ggez/src/sessions/sync_test.rs`), together
with the supporting data model (frame inputs, frame snapshots, the bounded
history buffer) that those two files use.

Machine integers are modelled as `Nat`; the one place where `u32` overflow
matters (the wrapping subtraction `self.frame - crate::MAX_PREDICTION_FRAMES`
inside `load_frame`'s range check) is made explicit with `% 2 ^ 32`
arithmetic.  Rust panics (out-of-bounds indexing, a failed `assert_eq!`)
are modelled by the distinguished outcome `Outcome.crashed`.
-/

/-- Modelled from the spec: the error kinds of §7 (`GGEZError` is declared in
the crate root, which is not under `src/`; the variant names are those used
by `sync_layer.rs` and `sessions/sync_test.rs`). -/
inductive GGEZError where
  | InvalidPlayerHandle
  | NotSynchronized
  | InvalidRequest
  | GeneralFailure
  | SyncTestFailed
  | Unsupported
deriving DecidableEq

/-- A Rust `Result<α, GGEZError>` extended with a `crashed` case standing for
a panic (out-of-bounds slice indexing or a failed `assert_eq!`). -/
inductive Outcome (α : Type) where
  | ok (value : α)
  | err (e : GGEZError)
  | crashed
deriving DecidableEq

def Outcome.isOk {α : Type} : Outcome α → Bool
  | .ok _ => true
  | _ => false

/-- Modelled from the spec: `crate::MAX_PREDICTION_FRAMES` (the fixed maximum
prediction window `W` of §3, a compile-time constant declared in the crate
root, which is not under `src/`). The spec fixes no numeric value; `8` is
used here.  Nothing below depends on the particular value beyond it being
positive. -/
def MAX_PREDICTION_FRAMES : Nat := 8

/-- `2 ^ 32`, the modulus of Rust `u32` arithmetic. -/
def U32 : Nat := 2 ^ 32

/-- Frame Input (§3): an ordered byte buffer.  `GameInput` is declared in
`frame_info.rs`, which is not under `src/`; only the `input_bits` byte buffer
is modelled, which is the only field the two source files touch. -/
structure GameInput where
  input_bits : List Nat
deriving DecidableEq

/-- Modelled from the spec: `GameInput::new(size, ...)` produces a zero-filled
buffer of the given size (both call sites in `src/` pass `None` for the
optional initial bits, so that argument is dropped). -/
def GameInput.new (size : Nat) : GameInput := ⟨List.replicate size 0⟩

/-- Modelled from the spec: `erase_bits` clears every byte of the buffer to
zero (§3: "Cleared (all bits set to zero) exactly once per tick"). -/
def GameInput.erase_bits (g : GameInput) : GameInput :=
  ⟨List.replicate g.input_bits.length 0⟩

/-- Game State (§3): an opaque byte blob plus an optional integrity checksum
(`GameState` is declared in `frame_info.rs`, not under `src/`). -/
structure GameState where
  buffer : List Nat
  checksum : Option Nat
deriving DecidableEq

/-- Frame Snapshot (§3): frame number, game state, and the input used to
produce the next frame (`FrameInfo` in `frame_info.rs`, not under `src/`). -/
structure FrameInfo where
  frame : Nat
  state : GameState
  input : GameInput
deriving DecidableEq

/-- Modelled from the spec: the Bounded History Buffer of §3/§4.1
(`CircularBuffer` in `circular_buffer.rs`, not under `src/`).  `elements`
is kept newest-first, so that age `k` (age 0 = most recently appended) is
plain positional lookup. -/
structure CircularBuffer (α : Type) where
  capacity : Nat
  elements : List α
deriving DecidableEq

/-- Modelled from the spec: a fresh buffer with the given capacity. -/
def CircularBuffer.new (α : Type) (cap : Nat) : CircularBuffer α := ⟨cap, []⟩

/-- Modelled from the spec: O(1) append that evicts the oldest entry when the
buffer is at capacity (§4.1). -/
def CircularBuffer.push_back {α} (b : CircularBuffer α) (x : α) : CircularBuffer α :=
  ⟨b.capacity, x :: b.elements.take (b.capacity - 1)⟩

/-- Modelled from the spec: the most recently pushed item, or empty (§4.1). -/
def CircularBuffer.front {α} (b : CircularBuffer α) : Option α := b.elements.head?

/-- Modelled from the spec: the item at the given age, or empty if the age is
at least the current length (§4.1, age 0 = most recently appended). -/
def CircularBuffer.get {α} (b : CircularBuffer α) (age : Nat) : Option α :=
  b.elements.get? age

/-- Modelled from the spec: the number of live entries (§4.1). -/
def CircularBuffer.len {α} (b : CircularBuffer α) : Nat := b.elements.length

/-- The host simulation callback contract of §6 (`GGEZInterface` is declared
in the crate root, not under `src/`).  The host's own state has some type
`σ`; each callback is a pure function of that state, mirroring the
single-threaded synchronous model of §5.  The second argument of
`advance_frame` is the `disconnect_flags` word. -/
structure GGEZInterface (σ : Type) where
  save_game_state : σ → GameState
  load_game_state : σ → GameState → σ
  advance_frame : σ → GameInput → Nat → σ

/-- The synchronization layer (`sync_layer.rs`, lines 5-13). -/
structure SyncLayer where
  num_players : Nat
  input_size : Nat
  saved_frames : CircularBuffer FrameInfo
  rolling_back : Bool
  last_confirmed_frame : Int
  frame : Nat
deriving DecidableEq

/-- `SyncLayer::new` (`sync_layer.rs`, lines 17-26). -/
def SyncLayer.new (num_players : Nat) (input_size : Nat) : SyncLayer :=
  { num_players := num_players
    input_size := input_size
    saved_frames := CircularBuffer.new FrameInfo MAX_PREDICTION_FRAMES
    rolling_back := false
    last_confirmed_frame := -1
    frame := 0 }

/-- `SyncLayer::get_current_frame` (`sync_layer.rs`, lines 28-30). -/
def SyncLayer.get_current_frame (s : SyncLayer) : Nat := s.frame

/-- `SyncLayer::advance_frame` (`sync_layer.rs`, lines 32-34): a pure counter
increment. -/
def SyncLayer.advance_frame (s : SyncLayer) : SyncLayer :=
  { s with frame := s.frame + 1 }

/-- `SyncLayer::save_current_state` (`sync_layer.rs`, lines 36-49). -/
def SyncLayer.save_current_state {σ} (s : SyncLayer) (input : Option GameInput)
    (iface : GGEZInterface σ) (g : σ) : SyncLayer :=
  let input_to_save : GameInput :=
    match input with
    | some inp => inp
    | none => GameInput.new (s.input_size * s.num_players)
  { s with
    saved_frames := s.saved_frames.push_back
      { frame := s.frame, state := iface.save_game_state g, input := input_to_save } }

/-- `SyncLayer::get_last_saved_state` (`sync_layer.rs`, lines 51-53). -/
def SyncLayer.get_last_saved_state (s : SyncLayer) : Option FrameInfo :=
  s.saved_frames.front

/-- `SyncLayer::load_frame` (`sync_layer.rs`, lines 57-79).  The range check
`frame_to_load < self.frame - crate::MAX_PREDICTION_FRAMES` is a `u32`
subtraction, so it is rendered with wrapping `% 2 ^ 32` arithmetic (the
release-build semantics; a debug build would already panic on the underflow
when `self.frame < MAX_PREDICTION_FRAMES`).  The source's
`assert_eq!(frame_info.frame, frame_to_load)` is modelled by the `crashed`
outcome when the fetched snapshot carries the wrong frame number.  The layer
itself is returned unchanged, mirroring that the source mutates nothing of
`self`. -/
def SyncLayer.load_frame {σ} (s : SyncLayer) (iface : GGEZInterface σ) (g : σ)
    (frame_to_load : Nat) : Outcome (SyncLayer × σ) :=
  if s.frame = frame_to_load ∨ frame_to_load > s.frame ∨
      frame_to_load < (s.frame + U32 - MAX_PREDICTION_FRAMES) % U32 then
    .err .InvalidRequest
  else
    let pos := s.frame - frame_to_load
    match s.saved_frames.get pos with
    | none => .err .GeneralFailure
    | some frame_info =>
      if frame_info.frame = frame_to_load then
        .ok (s, iface.load_game_state g frame_info.state)
      else
        .crashed

/-- The write loop of `add_local_input` (`sync_test.rs`, lines 69-72):
`for i in 0..input.len() { bits[lower_bound + i] |= input[i] }`.  Returns
`none` exactly when the loop would index out of bounds (a Rust panic). -/
def orMergeAt : List Nat → Nat → List Nat → Option (List Nat)
  | bits, _, [] => some bits
  | bits, lb, a :: rest =>
    if lb < bits.length then
      orMergeAt (bits.set lb (Nat.lor (bits.getD lb 0) a)) (lb + 1) rest
    else
      none

/-- The determinism test driver session (`sync_test.rs`, lines 10-20). -/
structure SyncTestSession where
  frame : Nat
  num_players : Nat
  input_size : Nat
  check_distance : Nat
  running : Bool
  current_input : GameInput
  saved_frames : CircularBuffer FrameInfo
  sync_layer : SyncLayer
deriving DecidableEq

/-- `SyncTestSession::new` (`sync_test.rs`, lines 23-34). -/
def SyncTestSession.new (check_distance : Nat) (num_players : Nat)
    (input_size : Nat) : SyncTestSession :=
  { frame := 0
    num_players := num_players
    input_size := input_size
    check_distance := check_distance
    running := false
    current_input := GameInput.new (input_size * num_players)
    saved_frames := CircularBuffer.new FrameInfo MAX_PREDICTION_FRAMES
    sync_layer := SyncLayer.new num_players input_size }

/-- `SyncTestSession::add_player` (`sync_test.rs`, lines 39-44).  The source
takes a `&Player` and only reads its `player_handle` field (`Player` is
declared in `player.rs`, not under `src/`), so the handle is passed
directly.  The session is not mutated. -/
def SyncTestSession.add_player (s : SyncTestSession) (player_handle : Nat) :
    Outcome Nat :=
  if player_handle > s.num_players then .err .InvalidPlayerHandle
  else .ok player_handle

/-- `SyncTestSession::start_session` (`sync_test.rs`, lines 48-55).  The pair
returns both the Rust `Result` and the (possibly mutated) session. -/
def SyncTestSession.start_session (s : SyncTestSession) :
    Outcome Unit × SyncTestSession :=
  match s.running with
  | true => (.err .InvalidRequest, s)
  | false => (.ok (), { s with running := true })

/-- `SyncTestSession::add_local_input` (`sync_test.rs`, lines 59-74): handle
check first, running check second, then the OR-merge write loop into the
handle's slice of the current frame input. -/
def SyncTestSession.add_local_input (s : SyncTestSession) (player_handle : Nat)
    (input : List Nat) : Outcome Unit × SyncTestSession :=
  if player_handle > s.num_players then (.err .InvalidPlayerHandle, s)
  else if !s.running then (.err .NotSynchronized, s)
  else
    match orMergeAt s.current_input.input_bits (player_handle * s.input_size) input with
    | some bits => (.ok (), { s with current_input := ⟨bits⟩ })
    | none => (.crashed, s)

/-- `SyncTestSession::advance_frame` (`sync_test.rs`, lines 78-102): save the
current state in the synchronization layer, mirror the snapshot into the
driver's own ledger, advance the host once with the current input, increment
both frame counters, erase the input — and then the simulated-rollback
section, which in the source is an empty conditional
(`if self.saved_frames.len() > self.check_distance as usize {}`). -/
def SyncTestSession.advance_frame {σ} (s : SyncTestSession)
    (iface : GGEZInterface σ) (g : σ) : Outcome Unit × SyncTestSession × σ :=
  let layer1 := s.sync_layer.save_current_state (some s.current_input) iface g
  match layer1.get_last_saved_state with
  | none => (.err .GeneralFailure, { s with sync_layer := layer1 }, g)
  | some fi =>
    let saved := s.saved_frames.push_back fi
    let g1 := iface.advance_frame g s.current_input 0
    let layer2 := layer1.advance_frame
    -- source line 99: `if self.saved_frames.len() > self.check_distance as usize {}`
    -- (empty body: the rollback-and-compare section is a stub)
    (.ok (),
     { s with
        sync_layer := layer2
        saved_frames := saved
        frame := s.frame + 1
        current_input := s.current_input.erase_bits },
     g1)

/-- A minimal host over `σ := Nat`: the state is a single counter, the saved
blob records it, loading restores it, advancing increments it. -/
def natIface : GGEZInterface Nat :=
  { save_game_state := fun n => { buffer := [n], checksum := some n }
    load_game_state := fun _ st => st.buffer.getD 0 0
    advance_frame := fun n _ _ => n + 1 }

/-- Drives a fresh `SyncLayer` (2 players, 4 input bytes) through `n` ticks of
save-then-advance against `natIface`, the pattern of the driver's
`advance_frame`; returns the layer and the host counter. -/
def mkLayerTicks : Nat → SyncLayer × Nat
  | 0 => (SyncLayer.new 2 4, 0)
  | n + 1 =>
    let (layer, g) := mkLayerTicks n
    let layer1 := layer.save_current_state none natIface g
    (layer1.advance_frame, natIface.advance_frame g (GameInput.new 8) 0)

/-- A freshly constructed and started session with `check_distance = 7`,
`num_players = 2`, `input_size = 4` (the configuration of the spec's §8
scenario). -/
def sessionRunning24 : SyncTestSession :=
  ((SyncTestSession.new 7 2 4).start_session).2

/-- A deterministic host mirroring the repository's `GameStateStub` test stub:
state `(frame, st)`; `advance` adds 1 to the frame counter and 2 to the
state; saving serializes both and supplies a checksum. -/
def detIface : GGEZInterface (Nat × Nat) :=
  { save_game_state := fun g => { buffer := [g.1, g.2], checksum := some (g.1 + 1000 * g.2) }
    load_game_state := fun _ st => (st.buffer.getD 0 0, st.buffer.getD 1 0)
    advance_frame := fun g _ _ => (g.1 + 1, g.2 + 2) }

/-- A non-deterministic host: its state is `((frame, st), calls)` where
`calls` counts every `advance` invocation but is **not** serialized by
`save_game_state` and **not** restored by `load_game_state`, so `advance`
consumes a source that a rollback would not replay — resimulating from a
restored snapshot with the same inputs yields a different state and a
different checksum than the original run. -/
def nondetIface : GGEZInterface ((Nat × Nat) × Nat) :=
  { save_game_state := fun g =>
      { buffer := [g.1.1, g.1.2], checksum := some (g.1.1 + 1000 * g.1.2) }
    load_game_state := fun g st => ((st.buffer.getD 0 0, st.buffer.getD 1 0), g.2)
    advance_frame := fun g _ _ => ((g.1.1 + 1, g.1.2 + 2 + g.2 % 3), g.2 + 1) }

/-- The little-endian 4-byte serialization of a `u32`, as `bincode` produces
for the inputs submitted in the §8 scenario. -/
def u32Bytes (i : Nat) : List Nat :=
  [i % 256, i / 256 % 256, i / 65536 % 256, i / 16777216 % 256]

/-- The §8 scenario: `num_players = 2`, `input_size = 4`,
`check_distance = 7`; add local player 1; start the session; then for each
`i < n` submit the serialized `u32` value `i` for handle 1 and call
`advance_frame` against the deterministic host.  The `Bool` component stays
`true` only while every call returns `Ok` and the host's internally tracked
frame counter equals `i + 1` right after call `i`. -/
def detRun (n : Nat) : SyncTestSession × (Nat × Nat) × Bool :=
  let s0 := SyncTestSession.new 7 2 4
  let rAdd := s0.add_player 1
  let (rStart, s1) := s0.start_session
  (List.range n).foldl
    (fun acc i =>
      let (s, g, good) := acc
      let (r1, sA) := s.add_local_input 1 (u32Bytes i)
      let (r2, sB, g2) := sA.advance_frame detIface g
      (sB, g2, good && r1.isOk && r2.isOk && (g2.1 == i + 1)))
    (s1, (0, 0), rAdd.isOk && rStart.isOk)

/-- The same scenario driven against the non-deterministic host; the `Bool`
component stays `true` only while every call returns `Ok` (in particular, no
call ever fails with the desync-detected error `SyncTestFailed`). -/
def nondetRun (n : Nat) : SyncTestSession × ((Nat × Nat) × Nat) × Bool :=
  let s0 := SyncTestSession.new 7 2 4
  let rAdd := s0.add_player 1
  let (rStart, s1) := s0.start_session
  (List.range n).foldl
    (fun acc i =>
      let (s, g, good) := acc
      let (r1, sA) := s.add_local_input 1 (u32Bytes i)
      let (r2, sB, g2) := sA.advance_frame nondetIface g
      (sB, g2, good && r1.isOk && r2.isOk))
    (s1, ((0, 0), 0), rAdd.isOk && rStart.isOk)

/-! ## Helper lemmas -/

theorem getD_set_self : ∀ (l : List Nat) (i v : Nat), i < l.length →
    (l.set i v).getD i 0 = v
  | [], i, _, h => absurd h (Nat.not_lt_zero i)
  | _ :: _, 0, _, _ => rfl
  | _ :: t, i + 1, v, h => getD_set_self t i v (Nat.lt_of_succ_lt_succ h)

theorem getD_set_other : ∀ (l : List Nat) (i k v : Nat), i ≠ k →
    (l.set i v).getD k 0 = l.getD k 0
  | [], _, _, _, _ => rfl
  | _ :: _, 0, 0, _, h => absurd rfl h
  | _ :: _, 0, _ + 1, _, _ => rfl
  | _ :: _, _ + 1, 0, _, _ => rfl
  | _ :: t, i + 1, k + 1, v, h =>
    getD_set_other t i k v (fun e => h (by rw [e]))

theorem getD_replicate : ∀ (n k : Nat), (List.replicate n 0).getD k 0 = 0
  | 0, _ => rfl
  | _ + 1, 0 => rfl
  | n + 1, k + 1 => getD_replicate n k

theorem zero_lor_eq (n : Nat) : Nat.lor 0 n = n := Nat.zero_or n

/-- Full characterization of the OR-merge write loop: if the written window
fits inside the buffer, the loop succeeds, preserves the length, and ORs the
input into the window byte by byte while leaving every other byte alone. -/
theorem orMergeAt_spec : ∀ (input bits : List Nat) (lb : Nat),
    lb + input.length ≤ bits.length →
    ∃ out, orMergeAt bits lb input = some out ∧ out.length = bits.length ∧
      ∀ k, out.getD k 0 =
        if lb ≤ k ∧ k < lb + input.length then
          Nat.lor (bits.getD k 0) (input.getD (k - lb) 0)
        else bits.getD k 0
  | [], bits, lb, _ =>
    ⟨bits, rfl, rfl, by
      intro k
      rw [if_neg]
      simp only [List.length_nil]
      omega⟩
  | a :: rest, bits, lb, h => by
    have hlb : lb < bits.length := by
      simp only [List.length_cons] at h
      omega
    obtain ⟨out, hout, hlen, hget⟩ :=
      orMergeAt_spec rest (bits.set lb (Nat.lor (bits.getD lb 0) a)) (lb + 1)
        (by simp only [List.length_set]; simp only [List.length_cons] at h; omega)
    refine ⟨out, ?_, by rw [hlen, List.length_set], ?_⟩
    · show orMergeAt bits lb (a :: rest) = some out
      rw [orMergeAt, if_pos hlb]
      exact hout
    · intro k
      rw [hget k]
      rcases Nat.lt_trichotomy k lb with hk | hk | hk
      · rw [if_neg (by omega), if_neg (by omega), getD_set_other _ _ _ _ (by omega)]
      · subst hk
        rw [if_neg (by omega), if_pos (by simp only [List.length_cons]; omega),
          getD_set_self _ _ _ hlb, Nat.sub_self]
        rfl
      · rcases Nat.lt_or_ge k (lb + 1 + rest.length) with hk2 | hk2
        · rw [if_pos (by omega), if_pos (by simp only [List.length_cons]; omega),
            getD_set_other _ _ _ _ (by omega)]
          have hidx : k - lb = (k - (lb + 1)) + 1 := by omega
          rw [hidx]
          rfl
        · rw [if_neg (by omega), if_neg (by simp only [List.length_cons]; omega),
            getD_set_other _ _ _ _ (by omega)]

/-- Submitting `a` then `b` at the same offset into an all-zero buffer leaves
the window holding the bytewise OR `a | b` and every other byte zero. -/
theorem double_merge_same (a b : List Nat) (lb n : Nat)
    (hlen : lb + a.length ≤ n) (hab : b.length = a.length) :
    ∃ out1 out2,
      orMergeAt (List.replicate n 0) lb a = some out1 ∧
      orMergeAt out1 lb b = some out2 ∧
      (∀ j, j < a.length →
        out2.getD (lb + j) 0 = Nat.lor (a.getD j 0) (b.getD j 0)) ∧
      (∀ k, k < lb ∨ lb + a.length ≤ k → out2.getD k 0 = 0) := by
  obtain ⟨out1, hm1, hl1, hg1⟩ :=
    orMergeAt_spec a (List.replicate n 0) lb (by rw [List.length_replicate]; omega)
  obtain ⟨out2, hm2, hl2, hg2⟩ :=
    orMergeAt_spec b out1 lb (by rw [hl1, List.length_replicate]; omega)
  refine ⟨out1, out2, hm1, hm2, ?_, ?_⟩
  · intro j hj
    rw [hg2 (lb + j), if_pos (by omega), hg1 (lb + j), if_pos (by omega),
      getD_replicate, zero_lor_eq, Nat.add_sub_cancel_left]
  · intro k hk
    rw [hg2 k, if_neg (by omega), hg1 k, if_neg (by omega), getD_replicate]

/-- Submitting `a` at offset `lb1` and then `b` at a disjoint offset `lb2`
into an all-zero buffer leaves the first window holding `a`, the second
holding `b`, and every byte outside both windows zero. -/
theorem double_merge_cross (a b : List Nat) (lb1 lb2 n : Nat)
    (h1 : lb1 + a.length ≤ n) (h2 : lb2 + b.length ≤ n)
    (hdisj : lb1 + a.length ≤ lb2 ∨ lb2 + b.length ≤ lb1) :
    ∃ out1 out2,
      orMergeAt (List.replicate n 0) lb1 a = some out1 ∧
      orMergeAt out1 lb2 b = some out2 ∧
      (∀ j, j < a.length → out2.getD (lb1 + j) 0 = a.getD j 0) ∧
      (∀ j, j < b.length → out2.getD (lb2 + j) 0 = b.getD j 0) ∧
      (∀ k, (k < lb1 ∨ lb1 + a.length ≤ k) → (k < lb2 ∨ lb2 + b.length ≤ k) →
        out2.getD k 0 = 0) := by
  obtain ⟨out1, hm1, hl1, hg1⟩ :=
    orMergeAt_spec a (List.replicate n 0) lb1 (by rw [List.length_replicate]; omega)
  obtain ⟨out2, hm2, hl2, hg2⟩ :=
    orMergeAt_spec b out1 lb2 (by rw [hl1, List.length_replicate]; omega)
  refine ⟨out1, out2, hm1, hm2, ?_, ?_, ?_⟩
  · intro j hj
    rw [hg2 (lb1 + j), if_neg (by omega), hg1 (lb1 + j), if_pos (by omega),
      getD_replicate, zero_lor_eq, Nat.add_sub_cancel_left]
  · intro j hj
    rw [hg2 (lb2 + j), if_pos (by omega), hg1 (lb2 + j), if_neg (by omega),
      getD_replicate, zero_lor_eq, Nat.add_sub_cancel_left]
  · intro k hk1 hk2
    rw [hg2 k, if_neg (by omega), hg1 k, if_neg (by omega), getD_replicate]

/-- A handle strictly below the player count owns a slice that fits inside
the `input_size * num_players` byte frame-input buffer. -/
theorem slice_bound (h np isz : Nat) (hh : h < np) :
    h * isz + isz ≤ isz * np := by
  have h1 : (h + 1) * isz ≤ np * isz :=
    Nat.mul_le_mul_right isz hh
  rw [Nat.add_mul, Nat.one_mul] at h1
  rw [Nat.mul_comm isz np]
  exact h1

/-- Distinct handles own disjoint slices of the frame-input buffer. -/
theorem slices_disjoint (h1 h2 isz : Nat) (hne : h1 ≠ h2) :
    h1 * isz + isz ≤ h2 * isz ∨ h2 * isz + isz ≤ h1 * isz := by
  rcases Nat.lt_or_ge h1 h2 with h | h
  · left
    have := Nat.mul_le_mul_right isz h
    rw [Nat.succ_mul] at this
    exact this
  · right
    have h' : h2 < h1 := Nat.lt_of_le_of_ne h (fun e => hne e.symm)
    have := Nat.mul_le_mul_right isz h'
    rw [Nat.succ_mul] at this
    exact this

/-- The success case of `add_local_input`: with the session running and the
handle accepted by the validation, the call rewrites the current frame input
to the result of the OR-merge loop and reports `Ok`. -/
theorem add_local_input_ok (s : SyncTestSession) (h : Nat) (input out : List Nat)
    (hr : s.running = true) (hh : ¬ h > s.num_players)
    (hm : orMergeAt s.current_input.input_bits (h * s.input_size) input = some out) :
    s.add_local_input h input = (.ok (), { s with current_input := ⟨out⟩ }) := by
  rw [SyncTestSession.add_local_input, if_neg hh, hr]
  simp [hm]

/-! ## Claims -/

set_option maxRecDepth 100000 in
/-- Claim C1: the claim says a successful `advance_frame` performs the
verification pass and, with a non-deterministic host, must eventually fail
with the desync-detected error.  In the source the simulated-rollback
section is an empty conditional, so `advance_frame` returns `Ok` for every
session and every host, advancing the host exactly once and never rolling
back, resimulating, or comparing checksums — in particular, all 200 calls of
the §8 scenario driven by a host whose `advance` consumes a non-replayed
counter return `Ok` and none ever reports `SyncTestFailed`. -/
theorem claim_C1_stub_never_detects_desync :
    (∀ (σ : Type) (s : SyncTestSession) (iface : GGEZInterface σ) (g : σ),
      (s.advance_frame iface g).1 = Outcome.ok () ∧
      (s.advance_frame iface g).2.2 = iface.advance_frame g s.current_input 0) ∧
    (nondetRun 200).2.2 = true :=
  ⟨fun _ _ _ _ => ⟨rfl, rfl⟩, by decide⟩

/-- Claim C2: the claim says `load_frame` never returns invalid-request for a
`target_frame` strictly between `current_frame − W` and `current_frame`,
for all current frames including those smaller than `W`.  Counter-evidence:
after 3 save-then-advance ticks the layer's frame is 3 and the snapshot of
frame 1 is in the history buffer (age 1), yet `load_frame` rejects target 1
with invalid-request, because the `u32` range check computes
`3 - MAX_PREDICTION_FRAMES`, which wraps to `2^32 - 5`. -/
theorem claim_C2_u32_underflow_rejects_recoverable_frame :
    (mkLayerTicks 3).1.frame = 3 ∧
    ((mkLayerTicks 3).1.saved_frames.get 1).map FrameInfo.frame = some 1 ∧
    (mkLayerTicks 3).1.load_frame natIface (mkLayerTicks 3).2 1 =
      Outcome.err GGEZError.InvalidRequest := by decide

/-- Claim C3: the claim says a `load_frame` call that passes the range check,
after a run of ticks in which each frame's snapshot was saved before each
advance, succeeds and restores exactly the snapshot recorded at
`target_frame`.  Counter-evidence: after 10 such ticks the layer's frame is
10 and the snapshot of frame 5 sits at age 4, but `load_frame 5` computes
age `10 − 5 = 5`, fetching the snapshot of frame 4, and its own
`assert_eq!(frame_info.frame, frame_to_load)` fails (a panic, modelled as
`crashed`) instead of restoring frame 5's snapshot. -/
theorem claim_C3_age_off_by_one_trips_assert :
    (mkLayerTicks 10).1.frame = 10 ∧
    ((mkLayerTicks 10).1.saved_frames.get 4).map FrameInfo.frame = some 5 ∧
    ((mkLayerTicks 10).1.saved_frames.get 5).map FrameInfo.frame = some 4 ∧
    (mkLayerTicks 10).1.load_frame natIface (mkLayerTicks 10).2 5 =
      Outcome.crashed := by decide

/-- Claim C4 counterexample: on a session that was never started,
`add_local_input` with handle 3 (num_players = 2) fails with
invalid-player-handle, not with not-synchronized — the handle check precedes
the running check, refuting "the not-synchronized failure applies to all
handles, including handles greater than num_players". -/
theorem claim_C4_counterexample_handle_checked_first :
    (SyncTestSession.new 1 2 4).running = false ∧
    ((SyncTestSession.new 1 2 4).add_local_input 3 [0, 0, 0, 0]).1 =
      Outcome.err GGEZError.InvalidPlayerHandle ∧
    ((SyncTestSession.new 1 2 4).add_local_input 3 [0, 0, 0, 0]).1 ≠
      Outcome.err GGEZError.NotSynchronized := by decide

/-- Claim C4, amended: before `start_session`, `add_local_input` fails with
not-synchronized for every handle that passes the handle validation
(`handle ≤ num_players`), and with invalid-player-handle for every handle
greater than `num_players`; in both cases the session is unchanged. -/
theorem claim_C4_amended_not_synchronized (s : SyncTestSession) (h : Nat)
    (input : List Nat) (hns : s.running = false) :
    (h ≤ s.num_players →
      s.add_local_input h input = (Outcome.err GGEZError.NotSynchronized, s)) ∧
    (h > s.num_players →
      s.add_local_input h input = (Outcome.err GGEZError.InvalidPlayerHandle, s)) := by
  constructor
  · intro hle
    rw [SyncTestSession.add_local_input, if_neg (by omega), hns]
    rfl
  · intro hgt
    rw [SyncTestSession.add_local_input, if_pos hgt]

/-- Witness for the amended claim C4 at a concrete not-started session. -/
theorem claim_C4_amended_witness :
    (SyncTestSession.new 1 2 4).add_local_input 0 [0, 0, 0, 0] =
      (Outcome.err GGEZError.NotSynchronized, SyncTestSession.new 1 2 4) ∧
    (SyncTestSession.new 1 2 4).add_local_input 3 [] =
      (Outcome.err GGEZError.InvalidPlayerHandle, SyncTestSession.new 1 2 4) :=
  ⟨(claim_C4_amended_not_synchronized _ 0 _ rfl).1 (by decide),
   (claim_C4_amended_not_synchronized _ 3 _ rfl).2 (by decide)⟩

/-- Claim C5: the claim says every `add_local_input` call on a running
session with a validation-accepted handle writes only in bounds, in
particular for `handle = num_players`.  Counter-evidence: on the running
session with `num_players = 2`, `input_size = 4`, handle 2 passes both the
`add_player` and the `add_local_input` validation, but its write window is
bytes 8..11 of the 8-byte (`input_size × num_players`) frame-input buffer,
so the write loop indexes out of bounds (a panic, modelled as `crashed`). -/
theorem claim_C5_boundary_handle_writes_out_of_bounds :
    sessionRunning24.running = true ∧
    sessionRunning24.num_players = 2 ∧
    sessionRunning24.current_input.input_bits.length = 4 * 2 ∧
    (sessionRunning24.add_player 2).isOk = true ∧
    (sessionRunning24.add_local_input 2 [1, 2, 3, 4]).1 = Outcome.crashed := by decide

/-- Claim C6 counterexample: handle 2 is "valid" in the sense of the
session's own validation (`handle ≤ num_players = 2`), yet submitting input
bits for it on a running session panics (out-of-bounds write) instead of
OR-merging into a slice, so the OR-merge law does not hold for every
validation-accepted handle. -/
theorem claim_C6_counterexample_boundary_handle :
    2 ≤ sessionRunning24.num_players ∧
    sessionRunning24.running = true ∧
    (sessionRunning24.add_local_input 2 [1, 0, 0, 0]).1 = Outcome.crashed ∧
    ((sessionRunning24.add_local_input 2 [1, 0, 0, 0]).2.add_local_input 2
        [2, 0, 0, 0]).1 = Outcome.crashed := by decide

/-- Claim C6, amended: for handles strictly below `num_players` (the handles
whose slices lie inside the `input_size × num_players` buffer), on a running
session whose current frame input is still all-zero: submitting `a` then `b`
for the same handle leaves that handle's slice holding the bytewise OR
`a | b` and every other byte zero; and submitting `a` and `b` for two
distinct such handles leaves the first slice holding `a`, the second
holding `b`, and every byte outside both slices zero. -/
theorem claim_C6_amended_or_merge_law (s : SyncTestSession) (h1 h2 : Nat)
    (a b : List Nat) (hr : s.running = true)
    (h0 : s.current_input.input_bits =
      List.replicate (s.input_size * s.num_players) 0)
    (hh1 : h1 < s.num_players) (hh2 : h2 < s.num_players)
    (ha : a.length = s.input_size) (hb : b.length = s.input_size) :
    ((s.add_local_input h1 a).1 = Outcome.ok () ∧
     ((s.add_local_input h1 a).2.add_local_input h1 b).1 = Outcome.ok () ∧
     (∀ j, j < s.input_size →
       (((s.add_local_input h1 a).2.add_local_input h1 b).2).current_input.input_bits.getD
         (h1 * s.input_size + j) 0 = Nat.lor (a.getD j 0) (b.getD j 0)) ∧
     (∀ k, k < s.input_size * s.num_players →
       (k < h1 * s.input_size ∨ h1 * s.input_size + s.input_size ≤ k) →
       (((s.add_local_input h1 a).2.add_local_input h1 b).2).current_input.input_bits.getD
         k 0 = 0)) ∧
    (h1 ≠ h2 →
     ((s.add_local_input h1 a).2.add_local_input h2 b).1 = Outcome.ok () ∧
     (∀ j, j < s.input_size →
       (((s.add_local_input h1 a).2.add_local_input h2 b).2).current_input.input_bits.getD
         (h1 * s.input_size + j) 0 = a.getD j 0) ∧
     (∀ j, j < s.input_size →
       (((s.add_local_input h1 a).2.add_local_input h2 b).2).current_input.input_bits.getD
         (h2 * s.input_size + j) 0 = b.getD j 0) ∧
     (∀ k, k < s.input_size * s.num_players →
       (k < h1 * s.input_size ∨ h1 * s.input_size + s.input_size ≤ k) →
       (k < h2 * s.input_size ∨ h2 * s.input_size + s.input_size ≤ k) →
       (((s.add_local_input h1 a).2.add_local_input h2 b).2).current_input.input_bits.getD
         k 0 = 0)) := by
  have hbound1 : h1 * s.input_size + a.length ≤ s.input_size * s.num_players := by
    rw [ha]; exact slice_bound _ _ _ hh1
  have hbound2 : h2 * s.input_size + b.length ≤ s.input_size * s.num_players := by
    rw [hb]; exact slice_bound _ _ _ hh2
  constructor
  · obtain ⟨out1, out2, hm1, hm2, hwin, hzero⟩ :=
      double_merge_same a b (h1 * s.input_size) (s.input_size * s.num_players)
        hbound1 (by rw [ha, hb])
    have eq1 : s.add_local_input h1 a =
        (Outcome.ok (), { s with current_input := ⟨out1⟩ }) :=
      add_local_input_ok s h1 a out1 hr (by omega) (by rw [h0]; exact hm1)
    have e1 : (s.add_local_input h1 a).2 = { s with current_input := ⟨out1⟩ } := by
      rw [eq1]
    have eq2 : ({ s with current_input := ⟨out1⟩ } : SyncTestSession).add_local_input h1 b =
        (Outcome.ok (), { s with current_input := ⟨out2⟩ }) :=
      add_local_input_ok _ h1 b out2 hr (by show ¬ h1 > s.num_players; omega) hm2
    refine ⟨by rw [eq1], by rw [e1, eq2], ?_, ?_⟩
    · intro j hj
      rw [e1, eq2]
      show out2.getD (h1 * s.input_size + j) 0 = Nat.lor (a.getD j 0) (b.getD j 0)
      exact hwin j (by rw [ha]; exact hj)
    · intro k _ hcond
      rw [e1, eq2]
      show out2.getD k 0 = 0
      apply hzero
      rw [ha]
      exact hcond
  · intro hne
    have hd := slices_disjoint h1 h2 s.input_size hne
    obtain ⟨u1, u2, hm1, hm2, hwa, hwb, hz⟩ :=
      double_merge_cross a b (h1 * s.input_size) (h2 * s.input_size)
        (s.input_size * s.num_players) hbound1 hbound2 (by rw [ha, hb]; exact hd)
    have eq1 : s.add_local_input h1 a =
        (Outcome.ok (), { s with current_input := ⟨u1⟩ }) :=
      add_local_input_ok s h1 a u1 hr (by omega) (by rw [h0]; exact hm1)
    have e1 : (s.add_local_input h1 a).2 = { s with current_input := ⟨u1⟩ } := by
      rw [eq1]
    have eq2 : ({ s with current_input := ⟨u1⟩ } : SyncTestSession).add_local_input h2 b =
        (Outcome.ok (), { s with current_input := ⟨u2⟩ }) :=
      add_local_input_ok _ h2 b u2 hr (by show ¬ h2 > s.num_players; omega) hm2
    refine ⟨by rw [e1, eq2], ?_, ?_, ?_⟩
    · intro j hj
      rw [e1, eq2]
      show u2.getD (h1 * s.input_size + j) 0 = a.getD j 0
      exact hwa j (by rw [ha]; exact hj)
    · intro j hj
      rw [e1, eq2]
      show u2.getD (h2 * s.input_size + j) 0 = b.getD j 0
      exact hwb j (by rw [hb]; exact hj)
    · intro k _ hcond1 hcond2
      rw [e1, eq2]
      show u2.getD k 0 = 0
      apply hz
      · rw [ha]; exact hcond1
      · rw [hb]; exact hcond2

/-- Witness for the amended claim C6: on the started 2-player session,
submitting `[1,2,3,4]` then `[4,8,16,32]` for handle 0 leaves byte 2 of
handle 0's slice holding `3 | 16 = 19`, and submitting for handles 0 and 1
leaves byte 1 of handle 1's slice holding the second input's byte. -/
theorem claim_C6_amended_witness :
    ((((sessionRunning24.add_local_input 0 [1, 2, 3, 4]).2).add_local_input 0
        [4, 8, 16, 32]).2).current_input.input_bits.getD
      (0 * sessionRunning24.input_size + 2) 0 =
      Nat.lor (([1, 2, 3, 4] : List Nat).getD 2 0)
        (([4, 8, 16, 32] : List Nat).getD 2 0) ∧
    ((((sessionRunning24.add_local_input 0 [1, 2, 3, 4]).2).add_local_input 1
        [4, 8, 16, 32]).2).current_input.input_bits.getD
      (1 * sessionRunning24.input_size + 1) 0 =
      ([4, 8, 16, 32] : List Nat).getD 1 0 :=
  ⟨(claim_C6_amended_or_merge_law sessionRunning24 0 1 [1, 2, 3, 4] [4, 8, 16, 32]
      rfl rfl (by decide) (by decide) rfl rfl).1.2.2.1 2 (by decide),
   ((claim_C6_amended_or_merge_law sessionRunning24 0 1 [1, 2, 3, 4] [4, 8, 16, 32]
      rfl rfl (by decide) (by decide) rfl rfl).2 (by decide)).2.2.1 1 (by decide)⟩

/-- Claim C7: every handle strictly greater than `num_players` is rejected by
`add_player` and (on a running session) by `add_local_input` with
invalid-player-handle, and every handle at most `num_players` is accepted by
`add_player`, which returns the handle unchanged. -/
theorem claim_C7_invalid_player_handle (s : SyncTestSession) (h : Nat)
    (input : List Nat) :
    (h > s.num_players →
      s.add_player h = Outcome.err GGEZError.InvalidPlayerHandle ∧
      (s.running = true →
        (s.add_local_input h input).1 = Outcome.err GGEZError.InvalidPlayerHandle)) ∧
    (h ≤ s.num_players → s.add_player h = Outcome.ok h) := by
  constructor
  · intro hgt
    refine ⟨?_, fun _ => ?_⟩
    · rw [SyncTestSession.add_player, if_pos hgt]
    · rw [SyncTestSession.add_local_input, if_pos hgt]
  · intro hle
    rw [SyncTestSession.add_player, if_neg (by omega)]

/-- Witness for claim C7 at concrete handles 3 (rejected) and 2 (accepted)
on a 2-player session. -/
theorem claim_C7_witness :
    (SyncTestSession.new 1 2 4).add_player 3 =
      Outcome.err GGEZError.InvalidPlayerHandle ∧
    (SyncTestSession.new 1 2 4).add_player 2 = Outcome.ok 2 :=
  ⟨((claim_C7_invalid_player_handle _ 3 []).1 (by decide)).1,
   (claim_C7_invalid_player_handle _ 2 []).2 (by decide)⟩

set_option maxRecDepth 100000 in
/-- Claim C8: on a running session, every `advance_frame` call returns `Ok`,
advances the host exactly once with the current merged frame input,
increments the layer's and the driver's frame counters by exactly one, and
clears every byte of the current frame input to zero; and in the §8
scenario (`num_players = 2`, `input_size = 4`, `check_distance = 7`, 200
ticks against the deterministic stub host), every call succeeds and the
host's internally tracked frame counter equals `i + 1` after call `i`. -/
theorem claim_C8_advance_frame_effects :
    (∀ (σ : Type) (s : SyncTestSession) (iface : GGEZInterface σ) (g : σ),
      s.running = true →
      (s.advance_frame iface g).1 = Outcome.ok () ∧
      (s.advance_frame iface g).2.2 = iface.advance_frame g s.current_input 0 ∧
      (s.advance_frame iface g).2.1.frame = s.frame + 1 ∧
      (s.advance_frame iface g).2.1.sync_layer.frame = s.sync_layer.frame + 1 ∧
      (s.advance_frame iface g).2.1.current_input.input_bits =
        List.replicate s.current_input.input_bits.length 0) ∧
    (detRun 200).2.2 = true :=
  ⟨fun _ _ _ _ _ => ⟨rfl, rfl, rfl, rfl, rfl⟩, by decide⟩

/-- Witness for claim C8 at the concrete started session and counter host. -/
theorem claim_C8_witness :
    sessionRunning24.running = true ∧
    (sessionRunning24.advance_frame natIface 0).1 = Outcome.ok () :=
  ⟨rfl, (claim_C8_advance_frame_effects.1 Nat sessionRunning24 natIface 0 rfl).1⟩

/-- Claim C9: `advance_frame` has no running-state precondition: on a session
that was never started it does not fail with not-synchronized but proceeds
exactly as on a running one — it saves a snapshot of the current state and
input, advances the host exactly once, increments both frame counters, and
returns success. -/
theorem claim_C9_no_running_precondition (σ : Type) (s : SyncTestSession)
    (iface : GGEZInterface σ) (g : σ) (_hns : s.running = false) :
    (s.advance_frame iface g).1 ≠ Outcome.err GGEZError.NotSynchronized ∧
    (s.advance_frame iface g).1 = Outcome.ok () ∧
    (s.advance_frame iface g).2.1.sync_layer.saved_frames.front =
      some ⟨s.sync_layer.frame, iface.save_game_state g, s.current_input⟩ ∧
    (s.advance_frame iface g).2.2 = iface.advance_frame g s.current_input 0 ∧
    (s.advance_frame iface g).2.1.frame = s.frame + 1 ∧
    (s.advance_frame iface g).2.1.sync_layer.frame = s.sync_layer.frame + 1 := by
  refine ⟨?_, rfl, rfl, rfl, rfl, rfl⟩
  intro hcontra
  simp [show (s.advance_frame iface g).1 = Outcome.ok () from rfl] at hcontra

/-- Witness for claim C9 at a concrete never-started session. -/
theorem claim_C9_witness :
    (SyncTestSession.new 1 2 4).running = false ∧
    ((SyncTestSession.new 1 2 4).advance_frame natIface 0).1 = Outcome.ok () :=
  ⟨rfl, (claim_C9_no_running_precondition Nat _ natIface 0 rfl).2.1⟩

/-- Claim C10: `start_session` on a not-running session sets the running flag
and succeeds; on an already-running session it fails with invalid-request
and leaves the session unchanged; and no modelled operation ever resets the
running flag to false (`start_session` always leaves it true,
`add_local_input` and `advance_frame` leave it exactly as it was). -/
theorem claim_C10_start_session_transitions (s : SyncTestSession) :
    (s.running = false →
      s.start_session = (Outcome.ok (), { s with running := true })) ∧
    (s.running = true →
      s.start_session = (Outcome.err GGEZError.InvalidRequest, s)) ∧
    (s.start_session).2.running = true ∧
    (∀ h input, ((s.add_local_input h input).2).running = s.running) ∧
    (∀ (σ : Type) (iface : GGEZInterface σ) (g : σ),
      ((s.advance_frame iface g).2.1).running = s.running) := by
  refine ⟨?_, ?_, ?_, ?_, fun _ _ _ => rfl⟩
  · intro h
    rw [SyncTestSession.start_session, h]
  · intro h
    rw [SyncTestSession.start_session, h]
  · rw [SyncTestSession.start_session]
    cases hrun : s.running
    · rfl
    · exact hrun
  · intro h input
    rw [SyncTestSession.add_local_input]
    split
    · rfl
    split
    · rfl
    split
    · rfl
    · rfl

/-- Witness for claim C10 at a concrete not-started and a concrete running
session. -/
theorem claim_C10_witness :
    (SyncTestSession.new 1 2 4).start_session =
      (Outcome.ok (), { SyncTestSession.new 1 2 4 with running := true }) ∧
    sessionRunning24.start_session =
      (Outcome.err GGEZError.InvalidRequest, sessionRunning24) :=
  ⟨(claim_C10_start_session_transitions _).1 rfl,
   (claim_C10_start_session_transitions _).2.1 rfl⟩
